import Mathlib

/-!
Verification of the course-seat monitor (`monitor.py`).

The program polls a timetable page, extracts `(enrolled, limit)` for a fixed
CRN from the flat sequence of table-cell texts, and runs a poll loop with
exponential backoff on failure and notification when a seat is open.

Shallow embedding conventions:
* A fetched page is abstracted to the ordered list of raw `<td>` text values;
  `get_text(strip=True)` on a cell is modelled as `String.trim`.
* Python `int(s)` is modelled by `pyInt` (optional surrounding whitespace,
  optional sign, ASCII decimal digits with single underscores allowed between
  digits).  Python additionally accepts non-ASCII unicode digits; those are
  outside the modelled character range and no result below depends on them.
* Exceptions (`IndexError`, `ValueError`) caught inside `fetch_enrollment`
  flow to its `None` result, so the model is a total function into `Option`.
* The poll loop body (`run`, lines 156-195) is modelled as a step function
  `step` on `MonitorState`, taking the outcome of one fetch and returning the
  new state together with the observable actions of that iteration
  (notifications issued, "full again" log, sleep duration).
-/

namespace Monitor

/-- `TARGET_CRN` constant from monitor.py line 21. -/
def TARGET_CRN : String := "31322"

/-- `CHECK_INTERVAL_SECONDS = 5 * 60` (line 26). -/
def CHECK_INTERVAL_SECONDS : Nat := 5 * 60

/-- `MAX_BACKOFF_SECONDS = 30 * 60` (line 27). -/
def MAX_BACKOFF_SECONDS : Nat := 30 * 60

/-- `FRIEND_DELAY_SECONDS = 2 * 60` (line 28). -/
def FRIEND_DELAY_SECONDS : Nat := 2 * 60

/-- Digit-string scanner backing `pyInt`: accepts the body of a Python decimal
integer literal, i.e. `digit ( underscore? digit )*`, accumulating the value.
`afterSep` is true when the previous character was a separator (or at the
start, so that a leading underscore and the empty string are rejected). -/
def digitsLoop (acc : Nat) (afterSep : Bool) : List Char → Option Nat
  | [] => if afterSep then none else some acc
  | c :: cs =>
      if c = '_' then
        if afterSep then none else digitsLoop acc true cs
      else if c.isDigit then
        digitsLoop (10 * acc + (c.toNat - 48)) false cs
      else none

/-- Value of a nonempty ASCII digit string with optional single underscores
between digits, as accepted by Python `int`. -/
def pyDigits (cs : List Char) : Option Nat :=
  digitsLoop 0 true cs

/-- ASCII whitespace as stripped by Python `str.strip()` and accepted around
an integer by Python `int`. -/
def isSpaceChar (c : Char) : Bool :=
  c = ' ' || c = '\t' || c = '\n' || c = '\r' || c = '\x0b' || c = '\x0c'

/-- Remove leading and trailing whitespace from a character list. -/
def stripChars (cs : List Char) : List Char :=
  ((cs.dropWhile isSpaceChar).reverse.dropWhile isSpaceChar).reverse

/-- Python `s.strip()` on a string. -/
def pyStrip (s : String) : String :=
  ⟨stripChars s.data⟩

/-- Model of Python `int(s)` for a decimal string: strip surrounding
whitespace, then an optional `+`/`-` sign followed by digits.  `none` models
the `ValueError` raised on any other input. -/
def pyInt (s : String) : Option Int :=
  match (pyStrip s).data with
  | '+' :: rest => (pyDigits rest).map (fun n => (n : Int))
  | '-' :: rest => (pyDigits rest).map (fun n => -(n : Int))
  | rest => (pyDigits rest).map (fun n => (n : Int))

/-- `cell.get_text(strip=True)` on a table cell, with the cell abstracted to
its text value. -/
def getTextStrip (s : String) : String := pyStrip s

/-- The `try` block of `fetch_enrollment` (lines 137-143) once the CRN has
matched at index `i`: read `cells[i+15]` (Lim) and `cells[i+16]` (Enrl),
parse both with `int`, and return `(enrolled, limit)`; an `IndexError` (an
offset out of range) or `ValueError` (a non-numeric text) is caught and
yields `none`. -/
def extractAt (cells : List String) (i : Nat) : Option (Int × Int) :=
  match cells[i + 15]?, cells[i + 16]? with
  | some limCell, some enrlCell =>
      match pyInt (getTextStrip enrlCell), pyInt (getTextStrip limCell) with
      | some enrl, some lim => some (enrl, lim)
      | _, _ => none
  | _, _ => none

/-- The `for i, cell in enumerate(cells)` loop of `fetch_enrollment`
(lines 131-146): walk the cells with their index, and on the first cell whose
stripped text equals `TARGET_CRN` return the result of the `try` block; if no
cell matches, fall through to `return None` (line 146). -/
def fetchGo (cells : List String) : Nat → List String → Option (Int × Int)
  | _, [] => none
  | i, c :: rest =>
      if getTextStrip c = TARGET_CRN then extractAt cells i
      else fetchGo cells (i + 1) rest

/-- `fetch_enrollment` (lines 114-146) with the page abstracted to its list
of cell texts: returns `(enrollment, limit)` for the target CRN, or `none`
if the course is not found or there is a parse error. -/
def fetch_enrollment (cells : List String) : Option (Int × Int) :=
  fetchGo cells 0 cells

/-- Index (counting from `k`) of the first cell whose stripped text equals
`TARGET_CRN`; used to characterise the loop of `fetch_enrollment`. -/
def firstMatchFrom (k : Nat) : List String → Option Nat
  | [] => none
  | c :: rest =>
      if getTextStrip c = TARGET_CRN then some k
      else firstMatchFrom (k + 1) rest

/-- The loop-local state of `run` (lines 153-154): `consecutive_failures`
and the `notified` flag. -/
structure MonitorState where
  consecutive_failures : Nat
  notified : Bool
  deriving Repr, DecidableEq

/-- Initial state set up at lines 153-154: zero failures, not notified. -/
def initialState : MonitorState := ⟨0, false⟩

/-- Outcome of one `fetch_enrollment()` call as seen by the loop body:
either the call raised `requests.RequestException` (caught at line 185), or
it returned normally with `result : Option (Int × Int)`. -/
inductive FetchOutcome where
  | raised
  | returned (result : Option (Int × Int))
  deriving Repr, DecidableEq

/-- One notification issued from the loop (the `notify(...)` call at
line 175): the open-spot count `spots = lim - enrl` computed at line 172 and
the two figures interpolated into the message at line 173. -/
structure OpenNotice where
  spots : Int
  enrl : Int
  lim : Int
  deriving Repr, DecidableEq

/-- Observable effect of one iteration of the `while True` loop: the state
carried to the next iteration, the `notify` calls issued (in order), whether
the "Class is full again." line (line 182) was logged, and the duration of
the `time.sleep` arrived at (lines 164, 189, 195). -/
structure StepResult where
  state : MonitorState
  notices : List OpenNotice
  fullAgainLogged : Bool
  wait : Nat
  deriving Repr, DecidableEq

/-- The backoff computation of lines 162 and 187:
`min(CHECK_INTERVAL_SECONDS * (2 ** cf), MAX_BACKOFF_SECONDS)` for the
already-incremented failure count `cf`. -/
def backoffWait (cf : Nat) : Nat :=
  min (CHECK_INTERVAL_SECONDS * 2 ^ cf) MAX_BACKOFF_SECONDS

/-- One iteration of the loop body of `run` (lines 156-195), as a function of
the incoming state and the fetch outcome.

* `raised` (the `except requests.RequestException` arm, lines 185-190):
  increment `consecutive_failures`, sleep the capped exponential backoff,
  `continue`.
* `returned none` (lines 160-165): same increment, backoff and `continue`.
* `returned (some (enrl, lim))` (lines 167-183): reset
  `consecutive_failures` to 0; if `enrl < lim`, compute `spots`, call
  `notify` (unconditionally), and set `notified` to true (lines 177-178 only
  assign when it was false, so it ends up true either way); otherwise log
  "full again" exactly when `notified` was true and clear it.  Then sleep
  the base interval (line 195). -/
def step (s : MonitorState) : FetchOutcome → StepResult
  | .raised =>
      ⟨⟨s.consecutive_failures + 1, s.notified⟩, [], false,
        backoffWait (s.consecutive_failures + 1)⟩
  | .returned none =>
      ⟨⟨s.consecutive_failures + 1, s.notified⟩, [], false,
        backoffWait (s.consecutive_failures + 1)⟩
  | .returned (some (enrl, lim)) =>
      if enrl < lim then
        ⟨⟨0, true⟩, [⟨lim - enrl, enrl, lim⟩], false, CHECK_INTERVAL_SECONDS⟩
      else
        ⟨⟨0, false⟩, [], s.notified, CHECK_INTERVAL_SECONDS⟩

/-- State after running the loop body once per element of `t`, starting
from `s`. -/
def runTrace (s : MonitorState) : List FetchOutcome → MonitorState
  | [] => s
  | f :: t => runTrace (step s f).state t

/-- The `(enrl, lim)` pair carried by a successful fetch outcome, if any. -/
def successOf : FetchOutcome → Option (Int × Int)
  | .returned (some p) => some p
  | _ => none

/-- The `(enrl, lim)` pair of the most recent successful poll in a trace. -/
def lastSuccess : List FetchOutcome → Option (Int × Int)
  | [] => none
  | f :: t =>
      match lastSuccess t with
      | some p => some p
      | none => successOf f

/-- Log levels used by the monitor. -/
inductive LogLevel where
  | info
  | warning
  | error
  deriving Repr, DecidableEq

/-- One log line: level and text. -/
structure LogLine where
  level : LogLevel
  text : String
  deriving Repr, DecidableEq

/-- External behaviour one `notify` call can encounter.
`osascriptExit` is the exit status of the `osascript` subprocess started at
line 104: `subprocess.run` is called without `check=True`, so a nonzero exit
status is returned in the ignored `CompletedProcess`, not raised.
`primarySendError` is the exception message, if any, raised inside the SMTP
session of the synchronous `send_email` call at line 109. -/
structure NotifyEnv where
  osascriptExit : Int
  primarySendError : Option String
  deriving Repr, DecidableEq

/-- Result of a `notify` call: the log lines it emitted and whether the
delayed friend-email thread was started (line 111). -/
structure NotifyResult where
  logs : List LogLine
  friendThreadStarted : Bool
  deriving Repr, DecidableEq

/-- `send_email` (lines 77-92) for recipients `recipients`, with the SMTP
session abstracted to `sendError` (the exception it raises, if any).  The
whole body sits in `try ... except Exception`, so an exception is caught and
logged as a warning (line 92) and the function returns normally either way;
on success an info line is logged (line 90). -/
def send_email (recipients : List String) (sendError : Option String) : List LogLine :=
  match sendError with
  | none => [⟨.info, "Email notification sent to " ++ String.intercalate ", " recipients⟩]
  | some e =>
      [⟨.warning, "Failed to send email to " ++ String.intercalate ", " recipients ++ ": " ++ e⟩]

/-- `notify` (lines 101-111) given the primary address `emailAddress`
(supplied by the external config module).  The `osascript` call's
`CompletedProcess` is discarded, so its exit status contributes nothing to
the logs and cannot raise; then the synchronous `send_email` to the primary
recipient runs; then the friend-email thread is started.  The model is a
total function: no failure modelled in `NotifyEnv` propagates out of
`notify`. -/
def notify (emailAddress : String) (env : NotifyEnv) : NotifyResult :=
  ⟨send_email [emailAddress] env.primarySendError, true⟩

/-- The scan of `fetch_enrollment` is determined by the first matching cell:
it returns the `try`-block result at the first match, and `none` when no cell
matches. -/
theorem fetchGo_eq (cells : List String) (suffix : List String) (k : Nat) :
    fetchGo cells k suffix =
      match firstMatchFrom k suffix with
      | some i => extractAt cells i
      | none => none := by
  induction suffix generalizing k with
  | nil => rfl
  | cons c rest ih =>
      by_cases h : getTextStrip c = TARGET_CRN
      · simp [fetchGo, firstMatchFrom, h]
      · simp [fetchGo, firstMatchFrom, h, ih]

/-- If no cell before index `i` matches the target CRN and the cell at `i`
does, then `i` is the first match (shifted by the running counter `k`). -/
theorem firstMatchFrom_first :
    ∀ (cells : List String) (i : Nat) (c : String) (k : Nat),
      (∀ j c', j < i → cells[j]? = some c' → getTextStrip c' ≠ TARGET_CRN) →
      cells[i]? = some c → getTextStrip c = TARGET_CRN →
      firstMatchFrom k cells = some (k + i) := by
  intro cells
  induction cells with
  | nil => intro i c k _ hc _; simp at hc
  | cons x rest ih =>
      intro i c k hfirst hc hm
      cases i with
      | zero =>
          simp at hc
          subst hc
          simp [firstMatchFrom, hm]
      | succ j =>
          have hx : getTextStrip x ≠ TARGET_CRN := by
            exact hfirst 0 x (Nat.succ_pos j) (by simp)
          have hrec := ih j c (k + 1)
            (fun j' c' hj' hg => hfirst (j' + 1) c' (by omega) (by simpa using hg))
            (by simpa using hc) hm
          rw [show k + (j + 1) = (k + 1) + j by omega]
          simpa [firstMatchFrom, hx] using hrec

/-- After any trace, the `notified` flag equals "the most recent successful
poll observed `enrl < lim`", defaulting to the incoming flag when the trace
contains no successful poll. -/
theorem notified_runTrace (t : List FetchOutcome) :
    ∀ s, (runTrace s t).notified =
      match lastSuccess t with
      | some (e, l) => decide (e < l)
      | none => s.notified := by
  induction t with
  | nil => intro s; rfl
  | cons f t ih =>
      intro s
      rw [runTrace, ih]
      cases hls : lastSuccess t with
      | some p => simp [lastSuccess, hls]
      | none =>
          cases f with
          | raised => simp [lastSuccess, hls, successOf, step]
          | returned r =>
              cases r with
              | none => simp [lastSuccess, hls, successOf, step]
              | some p =>
                  obtain ⟨e, l⟩ := p
                  by_cases h : e < l <;>
                    simp [lastSuccess, hls, successOf, step, h]

/-- The capped exponential backoff is monotone in the failure count. -/
theorem backoffWait_mono {n m : Nat} (h : n ≤ m) :
    backoffWait n ≤ backoffWait m :=
  min_le_min
    (Nat.mul_le_mul_left _ (Nat.pow_le_pow_right (by norm_num) h)) le_rfl

/-- The capped exponential backoff never exceeds the configured maximum. -/
theorem backoffWait_le (n : Nat) : backoffWait n ≤ MAX_BACKOFF_SECONDS :=
  min_le_right _ _

/-- C1: for every successful poll whose extracted values satisfy
`enrolled < limit`, the loop invokes the Notifier exactly once for that poll,
regardless of the current value of the `notified` flag (level-triggered),
and the reported number of open spots equals `limit - enrolled`. -/
theorem notify_every_open_poll (s : MonitorState) (e l : Int) (h : e < l) :
    step s (.returned (some (e, l))) =
      ⟨⟨0, true⟩, [⟨l - e, e, l⟩], false, CHECK_INTERVAL_SECONDS⟩ := by
  simp [step, h]

/-- Witness for C1 at the spec's example poll (`enrolled=8, limit=10`), with
the `notified` flag already true: the Notifier still fires exactly once and
reports 2 open spots. -/
theorem notify_every_open_poll_witness :
    step ⟨0, true⟩ (.returned (some (8, 10))) =
      ⟨⟨0, true⟩, [⟨2, 8, 10⟩], false, CHECK_INTERVAL_SECONDS⟩ :=
  notify_every_open_poll ⟨0, true⟩ 8 10 (by decide)

/-- C3: on every failed poll iteration (a raised request exception or a
`None` fetch result) the loop increments `consecutive_failures` and sleeps
`min(CHECK_INTERVAL_SECONDS * 2 ^ consecutive_failures, MAX_BACKOFF_SECONDS)`
for the incremented count; that wait is monotonically non-decreasing in the
failure count and never exceeds the configured maximum backoff. -/
theorem failure_backoff :
    (∀ s : MonitorState,
        (step s .raised).state.consecutive_failures = s.consecutive_failures + 1
        ∧ (step s .raised).wait =
            min (CHECK_INTERVAL_SECONDS * 2 ^ (s.consecutive_failures + 1))
              MAX_BACKOFF_SECONDS)
    ∧ (∀ s : MonitorState,
        (step s (.returned none)).state.consecutive_failures
            = s.consecutive_failures + 1
        ∧ (step s (.returned none)).wait =
            min (CHECK_INTERVAL_SECONDS * 2 ^ (s.consecutive_failures + 1))
              MAX_BACKOFF_SECONDS)
    ∧ (∀ n m : Nat, n ≤ m → backoffWait n ≤ backoffWait m)
    ∧ (∀ n : Nat, backoffWait n ≤ MAX_BACKOFF_SECONDS) :=
  ⟨fun _ => ⟨rfl, rfl⟩, fun _ => ⟨rfl, rfl⟩,
    fun _ _ h => backoffWait_mono h, backoffWait_le⟩

/-- Witness for C3: the three-failure run from a fresh state has waits
600, 1200, 1800 seconds — non-decreasing (1 ≤ 2 case shown) and capped. -/
theorem failure_backoff_witness :
    (step ⟨0, false⟩ .raised).wait = 600
    ∧ (step ⟨1, false⟩ (.returned none)).wait = 1200
    ∧ backoffWait 1 ≤ backoffWait 2
    ∧ backoffWait 3 ≤ MAX_BACKOFF_SECONDS :=
  ⟨by decide, by decide, failure_backoff.2.2.1 1 2 (by decide),
    failure_backoff.2.2.2 3⟩

/-- C6: after every successful fetch, `consecutive_failures` is reset to 0
and the sleep before the next poll is the base interval, whatever the state
(including after a run of failures). -/
theorem success_resets_backoff (s : MonitorState) (e l : Int) :
    (step s (.returned (some (e, l)))).state.consecutive_failures = 0
    ∧ (step s (.returned (some (e, l)))).wait = CHECK_INTERVAL_SECONDS := by
  by_cases h : e < l <;> simp [step, h]

/-- C9: on every failed poll iteration (raised exception or `None` result)
the `notified` flag is unchanged, the Notifier is not invoked, no "full
again" line is logged, and the only state component modified is
`consecutive_failures` (incremented by one). -/
theorem failure_frame (s : MonitorState) :
    ((step s .raised).state.notified = s.notified
      ∧ (step s .raised).notices = []
      ∧ (step s .raised).fullAgainLogged = false
      ∧ (step s .raised).state.consecutive_failures = s.consecutive_failures + 1)
    ∧ ((step s (.returned none)).state.notified = s.notified
      ∧ (step s (.returned none)).notices = []
      ∧ (step s (.returned none)).fullAgainLogged = false
      ∧ (step s (.returned none)).state.consecutive_failures
          = s.consecutive_failures + 1) :=
  ⟨⟨rfl, rfl, rfl, rfl⟩, ⟨rfl, rfl, rfl, rfl⟩⟩

/-- C5: in every state reachable from the initial state, `notified` is true
only if the most recent successful poll observed `enrolled < limit`; and on a
successful poll observing `enrolled >= limit` while `notified` is true, the
flag flips to false, the "full again" line is logged, and no notification is
sent. -/
theorem notified_invariant_and_full_again :
    (∀ t : List FetchOutcome, (runTrace initialState t).notified = true →
        ∃ e l : Int, lastSuccess t = some (e, l) ∧ e < l)
    ∧ (∀ (s : MonitorState) (e l : Int), s.notified = true → l ≤ e →
        step s (.returned (some (e, l))) =
          ⟨⟨0, false⟩, [], true, CHECK_INTERVAL_SECONDS⟩) := by
  constructor
  · intro t ht
    rw [notified_runTrace t initialState] at ht
    cases hls : lastSuccess t with
    | none => rw [hls] at ht; exact absurd ht (by simp [initialState])
    | some p =>
        obtain ⟨e, l⟩ := p
        rw [hls] at ht
        exact ⟨e, l, rfl, by simpa using ht⟩
  · intro s e l hn hle
    have h : ¬ e < l := not_lt.mpr hle
    simp [step, h, hn]

/-- Witness for C5: after the one-success trace observing `3 < 5` the flag
is true and the last success was indeed open; and from a notified state, a
full poll (`5 >= 5`) clears the flag, logs "full again", and sends
nothing. -/
theorem notified_invariant_and_full_again_witness :
    (∃ e l : Int,
        lastSuccess [FetchOutcome.returned (some (3, 5))] = some (e, l) ∧ e < l)
    ∧ step ⟨0, true⟩ (.returned (some (5, 5))) =
        ⟨⟨0, false⟩, [], true, CHECK_INTERVAL_SECONDS⟩ :=
  ⟨notified_invariant_and_full_again.1 [FetchOutcome.returned (some (3, 5))]
      (by decide),
    notified_invariant_and_full_again.2 ⟨0, true⟩ 5 5 rfl (by decide)⟩

/-- When no cell matches the target CRN, the extractor falls through to
`return None`. -/
theorem fetch_eq_none_of_no_match (cells : List String)
    (h : firstMatchFrom 0 cells = none) : fetch_enrollment cells = none := by
  rw [fetch_enrollment, fetchGo_eq, h]

/-- When the first matching cell is at index `i`, the extractor's result is
the `try`-block result at `i`. -/
theorem fetch_eq_extractAt (cells : List String) (i : Nat)
    (h : firstMatchFrom 0 cells = some i) :
    fetch_enrollment cells = extractAt cells i := by
  rw [fetch_enrollment, fetchGo_eq, h]

/-- C2: for every cell sequence in which the first cell whose stripped text
equals the target CRN is at index `i`, with at least 17 cells following it
and the cells at offsets +15 and +16 parsing as non-negative integers, the
extractor returns exactly `(enrolled, limit)` with `enrolled` read from
offset +16 and `limit` from offset +15. -/
theorem extractor_reads_fixed_offsets (cells : List String) (i : Nat)
    (c limC enrlC : String) (enrl lim : Int)
    (hfirst : ∀ j c', j < i → cells[j]? = some c' → getTextStrip c' ≠ TARGET_CRN)
    (hc : cells[i]? = some c) (hm : getTextStrip c = TARGET_CRN)
    (hlen : i + 18 ≤ cells.length)
    (hlimC : cells[i + 15]? = some limC) (henrlC : cells[i + 16]? = some enrlC)
    (hlim : pyInt (getTextStrip limC) = some lim)
    (henrl : pyInt (getTextStrip enrlC) = some enrl)
    (hlim0 : 0 ≤ lim) (henrl0 : 0 ≤ enrl) :
    fetch_enrollment cells = some (enrl, lim) := by
  rw [fetch_eq_extractAt cells i
    (by simpa using firstMatchFrom_first cells i c 0 hfirst hc hm)]
  simp [extractAt, hlimC, henrlC, hlim, henrl]

/-- A page fragment whose CRN row is followed by 17 cells, with Lim "10" at
offset +15 and Enrl "8" at offset +16. -/
def openSeatCells : List String :=
  ["31322", "a", "b", "c", "d", "e", "f", "g", "h", "i", "j", "k", "l", "m",
    "n", "10", "8", "z"]

/-- Witness for C2 on `openSeatCells`: the extractor returns `(8, 10)`. -/
theorem extractor_reads_fixed_offsets_witness :
    fetch_enrollment openSeatCells = some (8, 10) :=
  extractor_reads_fixed_offsets openSeatCells 0 "31322" "10" "8" 8 10
    (fun j c hj _ => absurd hj (Nat.not_lt_zero j))
    (by decide) (by decide) (by decide) (by decide) (by decide) (by decide)
    (by decide) (by decide) (by decide)

/-- C10: the extractor uses first-match semantics with no fallback — its
result is exactly the `try`-block result at the first cell whose stripped
text equals the target CRN (`none` when no cell matches), and when that
first match's result is `none` the extractor returns `none` without
consulting any later occurrence of the CRN. -/
theorem first_match_no_fallback :
    (∀ cells : List String,
        fetch_enrollment cells =
          match firstMatchFrom 0 cells with
          | some i => extractAt cells i
          | none => none)
    ∧ (∀ (cells : List String) (i : Nat),
        firstMatchFrom 0 cells = some i → extractAt cells i = none →
        fetch_enrollment cells = none) :=
  ⟨fun cells => fetchGo_eq cells cells 0,
    fun cells i hfm hex => (fetch_eq_extractAt cells i hfm).trans hex⟩

/-- A page fragment in which the target CRN occurs twice: the first
occurrence's Lim cell is the non-numeric "x", while the second occurrence
(at index 1) has parseable cells at its own offsets. -/
def doubleMatchCells : List String :=
  ["31322", "31322", "2", "3", "4", "5", "6", "7", "8", "9", "10", "11",
    "12", "13", "14", "x", "10", "3"]

/-- Witness for C10 on `doubleMatchCells`: the first match is at index 0,
the second occurrence at index 1 would by itself parse to `(3, 10)`, yet
the extractor returns `none` because the first match fails to parse. -/
theorem first_match_no_fallback_witness :
    firstMatchFrom 0 doubleMatchCells = some 0
    ∧ extractAt doubleMatchCells 1 = some (3, 10)
    ∧ fetch_enrollment doubleMatchCells = none :=
  ⟨by decide, by decide,
    first_match_no_fallback.2 doubleMatchCells 0 (by decide) (by decide)⟩

/-- A page fragment whose only CRN match is followed by exactly 16 cells
(fewer than 17), the last two being Lim "10" and Enrl "8". -/
def sixteenAfterCells : List String :=
  ["31322", "a", "b", "c", "d", "e", "f", "g", "h", "i", "j", "k", "l", "m",
    "n", "10", "8"]

/-- Counterexample to C4 as stated: on `sixteenAfterCells` the identifier
matches at index 0 with only 16 cells following (16 < 17), yet the extractor
returns the present result `(8, 10)`, not an absent one — offset +16 only
needs 16 following cells. -/
theorem sixteen_after_match_present :
    sixteenAfterCells.length = 17
    ∧ firstMatchFrom 0 sixteenAfterCells = some 0
    ∧ fetch_enrollment sixteenAfterCells = some (8, 10) := by
  refine ⟨by decide, by decide, by decide⟩

/-- C4 (amended): the extractor is total and never returns partial data: it
returns `none` when no cell's stripped text equals the target CRN; `none`
when the identifier matches at `i` but fewer than 16 cells follow (so the
cell at offset +16 is missing and the lookup raises `IndexError`); and
`none` when either offset cell fails integer parsing (`ValueError`).  All
three are the same recoverable absent result. -/
theorem extractor_total_recoverable :
    (∀ cells : List String,
        firstMatchFrom 0 cells = none → fetch_enrollment cells = none)
    ∧ (∀ (cells : List String) (i : Nat),
        firstMatchFrom 0 cells = some i → cells.length < i + 17 →
        fetch_enrollment cells = none)
    ∧ (∀ (cells : List String) (i : Nat) (limC : String),
        firstMatchFrom 0 cells = some i → cells[i + 15]? = some limC →
        pyInt (getTextStrip limC) = none → fetch_enrollment cells = none)
    ∧ (∀ (cells : List String) (i : Nat) (enrlC : String),
        firstMatchFrom 0 cells = some i → cells[i + 16]? = some enrlC →
        pyInt (getTextStrip enrlC) = none → fetch_enrollment cells = none) := by
  refine ⟨fetch_eq_none_of_no_match, ?_, ?_, ?_⟩
  · intro cells i hfm hlen
    rw [fetch_eq_extractAt cells i hfm]
    have h16 : cells[i + 16]? = none := by
      rw [List.getElem?_eq_none_iff]; omega
    rcases h15 : cells[i + 15]? with _ | x <;> simp [extractAt, h15, h16]
  · intro cells i limC hfm hlimC hbad
    rw [fetch_eq_extractAt cells i hfm]
    rcases h16 : cells[i + 16]? with _ | eC <;>
      simp [extractAt, hlimC, h16, hbad]
  · intro cells i enrlC hfm henrlC hbad
    rw [fetch_eq_extractAt cells i hfm]
    rcases h15 : cells[i + 15]? with _ | lC <;>
      simp [extractAt, h15, henrlC, hbad]

/-- Witness for C4 (amended): each of the three absent-result cases on a
concrete page fragment — no match at all; a match with the offset +16 cell
missing; a match with a non-numeric Lim cell; a match with a non-numeric
Enrl cell. -/
theorem extractor_total_recoverable_witness :
    fetch_enrollment ["x", "y"] = none
    ∧ fetch_enrollment ["31322", "a"] = none
    ∧ fetch_enrollment ["31322", "a", "b", "c", "d", "e", "f", "g", "h",
        "i", "j", "k", "l", "m", "n", "x", "8"] = none
    ∧ fetch_enrollment ["31322", "a", "b", "c", "d", "e", "f", "g", "h",
        "i", "j", "k", "l", "m", "n", "10", "y"] = none :=
  ⟨extractor_total_recoverable.1 ["x", "y"] (by decide),
    extractor_total_recoverable.2.1 ["31322", "a"] 0 (by decide) (by decide),
    extractor_total_recoverable.2.2.1 _ 0 "x" (by decide) (by decide)
      (by decide),
    extractor_total_recoverable.2.2.2 _ 0 "y" (by decide) (by decide)
      (by decide)⟩

/-- A page fragment whose CRN match has the negative texts "-5" (Lim) and
"-3" (Enrl) at the two offsets. -/
def negativeCells : List String :=
  ["31322", "a", "b", "c", "d", "e", "f", "g", "h", "i", "j", "k", "l", "m",
    "n", "-5", "-3"]

/-- Counterexample to C8 as stated: Python `int` accepts a sign, so the
negative cell texts of `negativeCells` parse and the extractor returns the
present result `(-3, -5)` with both components negative. -/
theorem negative_cells_present :
    fetch_enrollment negativeCells = some (-3, -5)
    ∧ (-3 : Int) < 0 ∧ (-5 : Int) < 0 := by
  refine ⟨by decide, by decide, by decide⟩

/-- Inversion of the `try` block: a present result determines both offset
cells and their parsed values. -/
theorem extractAt_eq_some (cells : List String) (i : Nat) (e l : Int)
    (h : extractAt cells i = some (e, l)) :
    ∃ limC enrlC : String,
      cells[i + 15]? = some limC ∧ cells[i + 16]? = some enrlC
      ∧ pyInt (getTextStrip limC) = some l
      ∧ pyInt (getTextStrip enrlC) = some e := by
  unfold extractAt at h
  split at h
  · rename_i limC enrlC h15 h16
    split at h
    · rename_i ev lv hpe hpl
      simp only [Option.some.injEq, Prod.mk.injEq] at h
      exact ⟨limC, enrlC, h15, h16, by rw [hpl, h.2], by rw [hpe, h.1]⟩
    · exact absurd h (by simp)
  · exact absurd h (by simp)

/-- C8 (amended): whenever the extractor returns a present result, its
components are exactly the integers Python `int` parses from the cells at
offsets +15 (limit) and +16 (enrolled) of the first CRN match — signed
parsing, with no non-negativity check. -/
theorem present_result_parsed_values (cells : List String) (e l : Int)
    (h : fetch_enrollment cells = some (e, l)) :
    ∃ (i : Nat) (limC enrlC : String),
      firstMatchFrom 0 cells = some i
      ∧ cells[i + 15]? = some limC ∧ cells[i + 16]? = some enrlC
      ∧ pyInt (getTextStrip limC) = some l
      ∧ pyInt (getTextStrip enrlC) = some e := by
  cases hfm : firstMatchFrom 0 cells with
  | none => rw [fetch_eq_none_of_no_match cells hfm] at h; exact absurd h (by simp)
  | some i =>
      rw [fetch_eq_extractAt cells i hfm] at h
      obtain ⟨limC, enrlC, h15, h16, hpl, hpe⟩ := extractAt_eq_some cells i e l h
      exact ⟨i, limC, enrlC, rfl, h15, h16, hpl, hpe⟩

/-- Witness for C8 (amended) on `negativeCells`: the present result
`(-3, -5)` comes with the parse facts at the first match. -/
theorem present_result_parsed_values_witness :
    ∃ (i : Nat) (limC enrlC : String),
      firstMatchFrom 0 negativeCells = some i
      ∧ negativeCells[i + 15]? = some limC
      ∧ negativeCells[i + 16]? = some enrlC
      ∧ pyInt (getTextStrip limC) = some (-5)
      ∧ pyInt (getTextStrip enrlC) = some (-3) :=
  present_result_parsed_values negativeCells (-3) (-5) (by decide)

/-- Counterexample to C7 as stated: with the desktop-alert subprocess
exiting nonzero (a failed alert) and the email succeeding, `notify` emits
only the email-success info line — the alert failure is not logged anywhere
(the `CompletedProcess` is discarded), and the exit status has no observable
effect at all. -/
theorem desktop_failure_unlogged :
    (1 : Int) ≠ 0
    ∧ notify "a@b" ⟨1, none⟩ =
        ⟨[⟨.info, "Email notification sent to a@b"⟩], true⟩
    ∧ notify "a@b" ⟨1, none⟩ = notify "a@b" ⟨0, none⟩ := by
  refine ⟨by decide, ?_, rfl⟩
  decide

/-- C7 (amended): no failure escapes `notify` or reaches the poll loop: the
desktop-alert exit status is ignored (it is not propagated, but also not
logged — the call's behaviour is independent of it), and a failure of the
synchronous primary email send is caught inside `send_email`, logged as a
single warning line, and `notify` still completes (the friend thread is
started). -/
theorem notify_isolates_failures (addr : String) (x y : Int)
    (p : Option String) :
    notify addr ⟨x, p⟩ = notify addr ⟨y, p⟩
    ∧ (∀ e : String, p = some e →
        (notify addr ⟨x, p⟩).logs.map LogLine.level = [LogLevel.warning]
        ∧ (notify addr ⟨x, p⟩).friendThreadStarted = true)
    ∧ (p = none →
        (notify addr ⟨x, p⟩).logs.map LogLine.level = [LogLevel.info]) := by
  refine ⟨rfl, ?_, ?_⟩
  · intro e he; subst he; exact ⟨rfl, rfl⟩
  · intro he; subst he; exact rfl

/-- Witness for C7 (amended): a failed desktop alert plus a failing email
send — behaviour independent of the exit status, exactly one warning line,
and the friend thread still starts. -/
theorem notify_isolates_failures_witness :
    notify "a@b" ⟨1, some "boom"⟩ = notify "a@b" ⟨0, some "boom"⟩
    ∧ (notify "a@b" ⟨1, some "boom"⟩).logs.map LogLine.level
        = [LogLevel.warning]
    ∧ (notify "a@b" ⟨1, some "boom"⟩).friendThreadStarted = true :=
  ⟨(notify_isolates_failures "a@b" 1 0 (some "boom")).1,
    ((notify_isolates_failures "a@b" 1 0 (some "boom")).2.1 "boom" rfl).1,
    ((notify_isolates_failures "a@b" 1 0 (some "boom")).2.1 "boom" rfl).2⟩

end Monitor
